import Mathlib

/-!
Verification of the goairsensor repository (gonium/goairsensor).

The repository holds two variants of one small Go program that reads a VOC
concentration from a USB air-quality sensor:

* `cmd/airsensor_httpd/main.go` (here: namespace `Httpd`), built on the
  `google/gousb` API (`OpenDeviceWithVIDPID`, `DefaultInterface`,
  `InEndpoint`/`OutEndpoint`);
* an older raw-read variant (here: namespace `Rawread`), built on the
  `kylelemons/gousb` API (`ListDevices`, `OpenEndpoint`).

Both variants run the same five-step exchange: stale-flush read, 16-byte
command write, response read, decode/validate of response bytes 2..3 as a
little-endian signed 16-bit value checked against [450, 2000], and a
trailing flush read.

The embedding models each `main` as a pure function from a `Config` (the
parsed flag values) and a world of transport-adapter outcomes to a
`RunResult` recording the observable behaviour: exit code, failure kind,
resources acquired and the deferred releases actually executed (Go runs
deferred calls on normal return and on panic, but `log.Fatal` calls
`os.Exit`, which skips them), endpoint numbers used, byte counts, the
decoded value and the reported classification.
-/

/-- A Go `byte`. -/
abbrev Byte := Fin 256

/-- Interpretation of the low 16 bits of a natural number as a two's-complement
signed 16-bit integer, as `encoding/binary` produces for an `int16` target. -/
def toInt16 (n : Nat) : Int :=
  if n % 65536 < 32768 then ((n % 65536 : Nat) : Int)
  else ((n % 65536 : Nat) : Int) - 65536

/-- Reference little-endian encoder for a signed 16-bit integer: low byte
first, then high byte, of the value's low 16 bits. -/
def encode_le_int16 (v : Int) : List Byte :=
  let u := (v % 65536).toNat
  [⟨u % 256, Nat.mod_lt u (by norm_num)⟩, ⟨u / 256 % 256, Nat.mod_lt _ (by norm_num)⟩]

/-- Outcome of the in-range check on a decoded value (spec §4.2):
`Valid` carries an in-range reading, `OutOfRange` carries the raw value for
diagnostic reporting. -/
inductive Classification where
  | Valid (v : Int)
  | OutOfRange (v : Int)
deriving DecidableEq, Repr

namespace Httpd

/-- `read_le_int16` from `cmd/airsensor_httpd/main.go`: `binary.Read` of the
first two bytes of `data` into an `int16` with `binary.LittleEndian`.
With fewer than two bytes available `binary.Read` fails before writing to
the target, so the zero-initialised named return `ret` is returned. -/
def read_le_int16 (data : List Byte) : Int :=
  match data with
  | lo :: hi :: _ => toInt16 (lo.val + 256 * hi.val)
  | _ => 0

/-- The range check on `voc` in `cmd/airsensor_httpd/main.go`:
`if (voc >= 450) && (voc <= 2000)` reports the reading, else reports the
raw value as invalid. -/
def classify (v : Int) : Classification :=
  if 450 ≤ v ∧ v ≤ 2000 then .Valid v else .OutOfRange v

end Httpd

namespace Rawread

/-- `read_le_int16` from the older raw-read variant: textually the same Go
function as in the httpd variant. -/
def read_le_int16 (data : List Byte) : Int :=
  match data with
  | lo :: hi :: _ => toInt16 (lo.val + 256 * hi.val)
  | _ => 0

/-- The range check on `voc` in the older raw-read variant:
`if (voc >= 450) && (voc <= 2000)`. -/
def classify (v : Int) : Classification :=
  if 450 ≤ v ∧ v ≤ 2000 then .Valid v else .OutOfRange v

end Rawread

/-- For a low byte below 256, bitwise or with the shifted high byte is plain
addition. -/
theorem lor_shiftLeft_eq_add (lo hi : Nat) (h : lo < 256) :
    lo ||| (hi <<< 8) = lo + 256 * hi := by
  have h8 : lo < 2 ^ 8 := by omega
  have e : (2 : Nat) ^ 8 = 256 := by norm_num
  calc lo ||| (hi <<< 8) = (2 ^ 8 * hi) ||| lo := by
        rw [Nat.shiftLeft_eq, Nat.lor_comm, Nat.mul_comm]
    _ = 2 ^ 8 * hi + lo := (Nat.mul_add_lt_is_or h8 hi).symm
    _ = lo + 256 * hi := by rw [e]; omega

/-- C2: for every byte pair `(lo, hi)`, `read_le_int16 [lo, hi]` is the
two's-complement signed 16-bit interpretation of `lo ||| (hi <<< 8)`; the
reference little-endian encoder maps the decoded value back to `[lo, hi]`
(so decoding round-trips on all 65536 byte pairs); and for every 16-bit
pattern `u`, decoding the reference encoding of its signed value returns
that value. -/
theorem read_le_int16_le_decode (lo hi : Byte) (u : Fin 65536) :
    Httpd.read_le_int16 [lo, hi] = toInt16 (lo.val ||| (hi.val <<< 8)) ∧
    encode_le_int16 (Httpd.read_le_int16 [lo, hi]) = [lo, hi] ∧
    Httpd.read_le_int16 (encode_le_int16 (toInt16 u.val)) = toInt16 u.val := by
  have hlo := lo.isLt
  have hhi := hi.isLt
  have hu := u.isLt
  refine ⟨?_, ?_, ?_⟩
  · rw [lor_shiftLeft_eq_add lo.val hi.val hlo]
    rfl
  · show encode_le_int16 (toInt16 (lo.val + 256 * hi.val)) = [lo, hi]
    simp only [encode_le_int16, toInt16]
    split_ifs with h <;>
      simp only [List.cons.injEq, and_true, Fin.ext_iff] <;> omega
  · have henc : encode_le_int16 (toInt16 u.val) =
        [⟨u.val % 256, Nat.mod_lt u.val (by norm_num)⟩,
         ⟨u.val / 256 % 256, Nat.mod_lt _ (by norm_num)⟩] := by
      simp only [encode_le_int16, toInt16]
      split_ifs with h <;>
        simp only [List.cons.injEq, and_true, Fin.ext_iff] <;> omega
    rw [henc]
    show toInt16 (u.val % 256 + 256 * (u.val / 256 % 256)) = toInt16 u.val
    have : u.val % 256 + 256 * (u.val / 256 % 256) = u.val := by omega
    rw [this]

/-- C3: `classify v` is `Valid` exactly when `450 ≤ v ≤ 2000`, is
`OutOfRange v` (carrying the raw value) otherwise, and the boundary values
450 and 2000 are valid while 449 and 2001 are out of range. -/
theorem classify_valid_iff_in_range (v : Int) :
    (Httpd.classify v = .Valid v ↔ (450 ≤ v ∧ v ≤ 2000)) ∧
    (Httpd.classify v = .OutOfRange v ↔ ¬(450 ≤ v ∧ v ≤ 2000)) ∧
    Httpd.classify 450 = .Valid 450 ∧ Httpd.classify 2000 = .Valid 2000 ∧
    Httpd.classify 449 = .OutOfRange 449 ∧ Httpd.classify 2001 = .OutOfRange 2001 := by
  refine ⟨?_, ?_, by decide, by decide, by decide, by decide⟩ <;>
    · unfold Httpd.classify
      split_ifs with h <;> simp [h]

/-- C10: the two implementation variants have extensionally equal
decode-and-validate logic: `read_le_int16` agrees on every byte sequence and
the in-range test `450 ≤ v ≤ 2000` classifies every value identically. -/
theorem variants_decode_validate_agree (data : List Byte) (v : Int) :
    Rawread.read_le_int16 data = Httpd.read_le_int16 data ∧
    Rawread.classify v = Httpd.classify v :=
  ⟨rfl, rfl⟩

/-- The parsed command-line flags (`flag.String`/`flag.Int` defaults from
both variants; the flag sets are identical). -/
structure Config where
  device : String := "03eb:2013"
  config : Nat := 1
  iface : Nat := 0
  setup : Nat := 0
  endpoint : Nat := 1
  debug : Nat := 3

/-- The flag defaults, as used by a run with no command-line arguments. -/
def defaultConfig : Config := {}

/-- Outcome the transport adapter has in store for one blocking endpoint
read: the bytes the device would deliver and whether the transfer errors. -/
structure ReadResult where
  data : List Byte
  err : Bool

/-- Outcome the transport adapter has in store for one blocking endpoint
write: the byte count it reports and whether it reports an error. -/
structure WriteResult where
  written : Nat
  err : Bool

/-- The deferred release actions appearing in the two variants. -/
inductive Release where
  | ctxClose
  | devClose
  | intfDone
  | devsClose
deriving DecidableEq, Repr

/-- Which `log.Fatal` site (or panic) ended a failed run. -/
inductive FailKind where
  | listFailed
  | deviceNotFound
  | deviceOpenFailed
  | claimFailed
  | endpointOpenFailed
  | readFailed
  | writeFailed
  | writeIncomplete
  | panicked
deriving DecidableEq, Repr

/-- Observable behaviour of one program run. `acquired` lists the deferred
release actions registered (most recent first); `releases` lists those
actually executed, in execution order. Fields are `none` / `0` when the run
ended before the corresponding step. -/
structure RunResult where
  exit : Nat := 0
  fail : Option FailKind := none
  acquired : List Release := []
  releases : List Release := []
  usedDevice : Option Nat := none
  inEp : Option Nat := none
  outEp : Option Nat := none
  epOps : Nat := 0
  flush1Count : Option Nat := none
  wrote : Option (List Byte) := none
  written : Option Nat := none
  respCount : Option Nat := none
  decoded : Option Int := none
  reported : Option Classification := none
  flush2Count : Option Nat := none
deriving DecidableEq, Repr

/-- Go semantics of a blocking endpoint `Read(buf)`: at most `len(buf)`
bytes are transferred into the front of `buf`; the rest of `buf` is
untouched. Returns the byte count and the buffer contents afterwards. -/
def goRead (buf : List Byte) (r : ReadResult) : Nat × List Byte :=
  let n := min buf.length r.data.length
  (n, r.data.take n ++ buf.drop n)

/-- Go semantics of the slice expression `buf[i:j]`: `none` models the
out-of-bounds panic. -/
def goSlice (buf : List Byte) (i j : Nat) : Option (List Byte) :=
  if i ≤ j ∧ j ≤ buf.length then some ((buf.drop i).take (j - i)) else none

/-- The fixed 16-byte command frame
`"\x40\x68\x2a\x54\x52\x0a\x40..."` both variants write. -/
def commandFrame : List Byte :=
  [0x40, 0x68, 0x2a, 0x54, 0x52, 0x0a,
   0x40, 0x40, 0x40, 0x40, 0x40, 0x40, 0x40, 0x40, 0x40, 0x40]

theorem commandFrame_length : commandFrame.length = 16 := rfl

/-- A read leaves the buffer length unchanged. -/
theorem goRead_snd_length (buf : List Byte) (r : ReadResult) :
    (goRead buf r).2.length = buf.length := by
  simp only [goRead, List.length_append, List.length_take, List.length_drop]
  omega

/-- Transport outcomes for one httpd-variant run, in program order. -/
structure WorldHttpd where
  openDevErr : Bool
  defaultIntfErr : Bool
  inEpErr : Bool
  outEpErr : Bool
  flush1 : ReadResult
  write : WriteResult
  resp : ReadResult
  flush2 : ReadResult

namespace Httpd

/-- Shallow embedding of `main` of `cmd/airsensor_httpd/main.go`. Deferred
calls (`ctx.Close()`, `dev.Close()`, `done()`) are registered on `acquired`
as acquisition succeeds; they execute (LIFO) only on normal return or panic,
because every failure branch is a `log.Fatal`, which is `os.Exit` and skips
deferred calls. -/
def run (cfg : Config) (w : WorldHttpd) : RunResult :=
  let acq1 : List Release := [.ctxClose]
  if w.openDevErr then
    { exit := 1, fail := some .deviceOpenFailed, acquired := acq1 }
  else
  let acq2 : List Release := .devClose :: acq1
  if w.defaultIntfErr then
    { exit := 1, fail := some .claimFailed, acquired := acq2 }
  else
  let acq3 : List Release := .intfDone :: acq2
  if w.inEpErr then
    { exit := 1, fail := some .endpointOpenFailed, acquired := acq3, inEp := some 1 }
  else
  if w.outEpErr then
    { exit := 1, fail := some .endpointOpenFailed, acquired := acq3,
      inEp := some 1, outEp := some 2 }
  else
  let r1 := goRead [] w.flush1
  if w.flush1.err then
    { exit := 1, fail := some .readFailed, acquired := acq3,
      inEp := some 1, outEp := some 2, epOps := 1 }
  else
  let num1 := w.write.written
  if num1 ≠ commandFrame.length then
    { exit := 1, fail := some .writeIncomplete, acquired := acq3,
      inEp := some 1, outEp := some 2, epOps := 2, flush1Count := some r1.1,
      wrote := some commandFrame, written := some num1 }
  else
  let r2 := goRead commandFrame w.resp
  if w.resp.err then
    { exit := 1, fail := some .readFailed, acquired := acq3,
      inEp := some 1, outEp := some 2, epOps := 3, flush1Count := some r1.1,
      wrote := some commandFrame, written := some num1, respCount := some r2.1 }
  else
  match goSlice r2.2 2 4 with
  | none =>
    { exit := 2, fail := some .panicked, acquired := acq3,
      releases := [.intfDone, .devClose, .ctxClose],
      inEp := some 1, outEp := some 2, epOps := 3, flush1Count := some r1.1,
      wrote := some commandFrame, written := some num1, respCount := some r2.1 }
  | some sl =>
    let voc := read_le_int16 sl
    let rep := classify voc
    let r3 := goRead r2.2 w.flush2
    if w.flush2.err then
      { exit := 1, fail := some .readFailed, acquired := acq3,
        inEp := some 1, outEp := some 2, epOps := 4, flush1Count := some r1.1,
        wrote := some commandFrame, written := some num1, respCount := some r2.1,
        decoded := some voc, reported := some rep }
    else
      { exit := 0, acquired := acq3,
        releases := [.intfDone, .devClose, .ctxClose],
        inEp := some 1, outEp := some 2, epOps := 4, flush1Count := some r1.1,
        wrote := some commandFrame, written := some num1, respCount := some r2.1,
        decoded := some voc, reported := some rep, flush2Count := some r3.1 }

end Httpd

/-- `usb.ENDPOINT_DIR_IN` of `kylelemons/gousb`. -/
def ENDPOINT_DIR_IN : Nat := 0x80

/-- `usb.ENDPOINT_DIR_OUT` of `kylelemons/gousb`. -/
def ENDPOINT_DIR_OUT : Nat := 0x00

/-- Transport outcomes for one raw-read-variant run, in program order.
`devs` is the device-handle list `ListDevices` returns for the selector. -/
structure WorldRawread where
  listErr : Bool
  devs : List Nat
  epReadErr : Bool
  epWriteErr : Bool
  flush1 : ReadResult
  write : WriteResult
  resp : ReadResult
  flush2 : ReadResult

namespace Rawread

/-- Shallow embedding of `main` of the older raw-read variant. The deferred
`ctx.Close()` and the deferred loop closing every listed device are
registered before the error checks; as in the httpd variant, every failure
branch is a `log.Fatal`, which skips deferred calls. The write step checks
only `err != nil`, not the byte count. -/
def run (cfg : Config) (w : WorldRawread) : RunResult :=
  let acq2 : List Release := [.devsClose, .ctxClose]
  if w.listErr then
    { exit := 1, fail := some .listFailed, acquired := acq2 }
  else
  match w.devs with
  | [] => { exit := 1, fail := some .deviceNotFound, acquired := acq2 }
  | d :: _ =>
    if w.epReadErr then
      { exit := 1, fail := some .endpointOpenFailed, acquired := acq2,
        usedDevice := some d, inEp := some (1 ||| ENDPOINT_DIR_IN) }
    else
    if w.epWriteErr then
      { exit := 1, fail := some .endpointOpenFailed, acquired := acq2,
        usedDevice := some d, inEp := some (1 ||| ENDPOINT_DIR_IN),
        outEp := some (2 ||| ENDPOINT_DIR_OUT) }
    else
    let r1 := goRead [] w.flush1
    if w.flush1.err then
      { exit := 1, fail := some .readFailed, acquired := acq2,
        usedDevice := some d, inEp := some (1 ||| ENDPOINT_DIR_IN),
        outEp := some (2 ||| ENDPOINT_DIR_OUT), epOps := 1 }
    else
    let num1 := w.write.written
    if w.write.err then
      { exit := 1, fail := some .writeFailed, acquired := acq2,
        usedDevice := some d, inEp := some (1 ||| ENDPOINT_DIR_IN),
        outEp := some (2 ||| ENDPOINT_DIR_OUT), epOps := 2,
        flush1Count := some r1.1, wrote := some commandFrame, written := some num1 }
    else
    let r2 := goRead commandFrame w.resp
    if w.resp.err then
      { exit := 1, fail := some .readFailed, acquired := acq2,
        usedDevice := some d, inEp := some (1 ||| ENDPOINT_DIR_IN),
        outEp := some (2 ||| ENDPOINT_DIR_OUT), epOps := 3,
        flush1Count := some r1.1, wrote := some commandFrame, written := some num1,
        respCount := some r2.1 }
    else
    match goSlice r2.2 2 4 with
    | none =>
      { exit := 2, fail := some .panicked, acquired := acq2,
        releases := [.devsClose, .ctxClose],
        usedDevice := some d, inEp := some (1 ||| ENDPOINT_DIR_IN),
        outEp := some (2 ||| ENDPOINT_DIR_OUT), epOps := 3,
        flush1Count := some r1.1, wrote := some commandFrame, written := some num1,
        respCount := some r2.1 }
    | some sl =>
      let voc := read_le_int16 sl
      let rep := classify voc
      let r3 := goRead r2.2 w.flush2
      if w.flush2.err then
        { exit := 1, fail := some .readFailed, acquired := acq2,
          usedDevice := some d, inEp := some (1 ||| ENDPOINT_DIR_IN),
          outEp := some (2 ||| ENDPOINT_DIR_OUT), epOps := 4,
          flush1Count := some r1.1, wrote := some commandFrame, written := some num1,
          respCount := some r2.1, decoded := some voc, reported := some rep }
      else
        { exit := 0, acquired := acq2, releases := [.devsClose, .ctxClose],
          usedDevice := some d, inEp := some (1 ||| ENDPOINT_DIR_IN),
          outEp := some (2 ||| ENDPOINT_DIR_OUT), epOps := 4,
          flush1Count := some r1.1, wrote := some commandFrame, written := some num1,
          respCount := some r2.1, decoded := some voc, reported := some rep,
          flush2Count := some r3.1 }

end Rawread

/-- Slicing `[2:4]` of a 16-byte buffer stays in bounds. -/
theorem goSlice_24_of_length (buf : List Byte) (h : buf.length = 16) :
    goSlice buf 2 4 = some ((buf.drop 2).take 2) := by
  simp [goSlice, h]

/-- The httpd variant never reaches the out-of-bounds panic: the response
read goes into the 16-byte command-frame buffer, whose length a read
preserves, so `buf[2:4]` is always in bounds. -/
theorem httpd_no_panic (cfg : Config) (w : WorldHttpd) :
    (Httpd.run cfg w).fail ≠ some .panicked := by
  have hsl := goSlice_24_of_length _ (goRead_snd_length commandFrame w.resp)
  simp only [Httpd.run, hsl]
  split_ifs <;> simp

/-- The raw-read variant never reaches the out-of-bounds panic either. -/
theorem rawread_no_panic (cfg : Config) (w : WorldRawread) :
    (Rawread.run cfg w).fail ≠ some .panicked := by
  obtain ⟨le, devs, ere, ewe, f1, wr, rp, f2⟩ := w
  have hsl := goSlice_24_of_length _ (goRead_snd_length commandFrame rp)
  cases devs <;>
    · simp only [Rawread.run, hsl]
      split_ifs <;> simp

/-- In the httpd variant the registered deferred releases run, LIFO, exactly
on the normal-exit path; every failure branch is `log.Fatal` and runs none. -/
theorem httpd_releases (cfg : Config) (w : WorldHttpd) :
    (Httpd.run cfg w).releases =
      (if (Httpd.run cfg w).exit = 0 then [.intfDone, .devClose, .ctxClose] else []) := by
  have hsl := goSlice_24_of_length _ (goRead_snd_length commandFrame w.resp)
  simp only [Httpd.run, hsl]
  split_ifs <;> simp_all

/-- Same for the raw-read variant with its two deferred releases. -/
theorem rawread_releases (cfg : Config) (w : WorldRawread) :
    (Rawread.run cfg w).releases =
      (if (Rawread.run cfg w).exit = 0 then [.devsClose, .ctxClose] else []) := by
  obtain ⟨le, devs, ere, ewe, f1, wr, rp, f2⟩ := w
  have hsl := goSlice_24_of_length _ (goRead_snd_length commandFrame rp)
  cases devs <;>
    · simp only [Rawread.run, hsl]
      split_ifs <;> simp_all

/-- A world in which everything up to the IN-endpoint open succeeds, and
that open fails. -/
def wInEpFail : WorldHttpd :=
  { openDevErr := false, defaultIntfErr := false, inEpErr := true, outEpErr := false,
    flush1 := ⟨[], false⟩, write := ⟨16, false⟩, resp := ⟨[], false⟩,
    flush2 := ⟨[], false⟩ }

/-- C1 counterexample: when opening the IN endpoint fails after the device
handle and the interface claim were acquired (deferred `ctx.Close`,
`dev.Close`, `done` all registered), the run terminates via `log.Fatal`
with no release executed at all — the already-acquired resources are not
released on this exit path. -/
theorem open_failure_skips_acquired_releases :
    (Httpd.run defaultConfig wInEpFail).exit = 1 ∧
    (Httpd.run defaultConfig wInEpFail).acquired =
      [.intfDone, .devClose, .ctxClose] ∧
    (Httpd.run defaultConfig wInEpFail).releases = [] := by decide

/-- C1 as amended: the deferred releases run each exactly once, in reverse
acquisition order, on the normal-completion path only; on every failure
path (`log.Fatal`, hence `os.Exit`) no release runs, whatever had been
acquired. -/
theorem releases_only_on_normal_exit (cfg : Config) (w : WorldHttpd)
    (w' : WorldRawread) :
    (Httpd.run cfg w).releases =
      (if (Httpd.run cfg w).exit = 0 then [.intfDone, .devClose, .ctxClose] else []) ∧
    (Rawread.run cfg w').releases =
      (if (Rawread.run cfg w').exit = 0 then [.devsClose, .ctxClose] else []) :=
  ⟨httpd_releases cfg w, rawread_releases cfg w'⟩

/-- A configuration whose `endpoint` flag is 5 instead of the default 1. -/
def cfgEndpoint5 : Config := { endpoint := 5 }

/-- A fully successful httpd-variant world delivering the in-range reading
0x06C2 = 1730 at response offsets 2..3. -/
def wScenarioA : WorldHttpd :=
  { openDevErr := false, defaultIntfErr := false, inEpErr := false, outEpErr := false,
    flush1 := ⟨[], false⟩, write := ⟨16, false⟩,
    resp := ⟨[0, 0, 0xC2, 0x06], false⟩, flush2 := ⟨[], false⟩ }

/-- C5 counterexample: with the `endpoint` option set to 5 the session still
opens IN endpoint 1 and OUT endpoint 2 — the configured endpoint number is
ignored, the endpoints are fixed. -/
theorem endpoints_ignore_configured_number :
    cfgEndpoint5.endpoint = 5 ∧
    (Httpd.run cfgEndpoint5 wScenarioA).inEp = some 1 ∧
    (Httpd.run cfgEndpoint5 wScenarioA).outEp = some 2 ∧
    (Httpd.run cfgEndpoint5 wScenarioA).inEp ≠ some cfgEndpoint5.endpoint ∧
    (Httpd.run cfgEndpoint5 wScenarioA).outEp ≠ some cfgEndpoint5.endpoint := by
  decide

/-- C5 as amended: for every configuration, any endpoint the session opens
is fixed: IN number 1 and OUT number 2 in the httpd variant, and address
`1 ||| ENDPOINT_DIR_IN` (number 1, IN) and `2 ||| ENDPOINT_DIR_OUT`
(number 2, OUT) in the raw-read variant, independent of the recognized
`endpoint` option. -/
theorem endpoints_fixed_one_two (cfg : Config) (w : WorldHttpd)
    (w' : WorldRawread) :
    ((Httpd.run cfg w).inEp = none ∨ (Httpd.run cfg w).inEp = some 1) ∧
    ((Httpd.run cfg w).outEp = none ∨ (Httpd.run cfg w).outEp = some 2) ∧
    ((Rawread.run cfg w').inEp = none ∨
      (Rawread.run cfg w').inEp = some (1 ||| ENDPOINT_DIR_IN)) ∧
    ((Rawread.run cfg w').outEp = none ∨
      (Rawread.run cfg w').outEp = some (2 ||| ENDPOINT_DIR_OUT)) := by
  obtain ⟨le, devs, ere, ewe, f1, wr, rp, f2⟩ := w'
  have hh : ((Httpd.run cfg w).inEp = none ∨ (Httpd.run cfg w).inEp = some 1) ∧
      ((Httpd.run cfg w).outEp = none ∨ (Httpd.run cfg w).outEp = some 2) := by
    simp only [Httpd.run]
    split_ifs <;> (try split) <;> simp
  refine ⟨hh.1, hh.2, ?_⟩
  cases devs <;>
    · simp only [Rawread.run]
      split_ifs <;> (try split) <;> simp

/-- C8: the initial stale-flush read is issued on the nil buffer `var buf
[]byte`, so however many stale bytes the device holds, it transfers 0 bytes
and leaves the buffer empty; whenever the run records the flush's reported
count, that count is 0 — the flush cannot drain anything. -/
theorem stale_flush_reads_zero_bytes (cfg : Config) (w : WorldHttpd)
    (w' : WorldRawread) (r : ReadResult) :
    goRead [] r = (0, []) ∧
    ((Httpd.run cfg w).flush1Count = none ∨
      (Httpd.run cfg w).flush1Count = some 0) ∧
    ((Rawread.run cfg w').flush1Count = none ∨
      (Rawread.run cfg w').flush1Count = some 0) := by
  obtain ⟨le, devs, ere, ewe, f1, wr, rp, f2⟩ := w'
  refine ⟨by simp [goRead], ?_, ?_⟩
  · simp only [Httpd.run]
    split_ifs <;> (try split) <;> simp [goRead]
  · cases devs <;>
      · simp only [Rawread.run]
        split_ifs <;> (try split) <;> simp [goRead]

/-- Normal form of a httpd-variant run that reaches the decode step: the
decoded value and the report come from bytes 2..3 of the post-read buffer,
and only the trailing flush can still fail. -/
theorem httpd_success_normal_form (cfg : Config) (w : WorldHttpd)
    (h1 : w.openDevErr = false) (h2 : w.defaultIntfErr = false)
    (h3 : w.inEpErr = false) (h4 : w.outEpErr = false)
    (h5 : w.flush1.err = false) (h6 : w.write.written = 16)
    (h7 : w.resp.err = false) :
    (Httpd.run cfg w).exit = (if w.flush2.err then 1 else 0) ∧
    (Httpd.run cfg w).fail = (if w.flush2.err then some .readFailed else none) ∧
    (Httpd.run cfg w).decoded =
      some (Httpd.read_le_int16
        ((((goRead commandFrame w.resp).2).drop 2).take 2)) ∧
    (Httpd.run cfg w).reported =
      some (Httpd.classify (Httpd.read_le_int16
        ((((goRead commandFrame w.resp).2).drop 2).take 2))) := by
  have hsl := goSlice_24_of_length _ (goRead_snd_length commandFrame w.resp)
  simp only [Httpd.run, hsl, h1, h2, h3, h4, h5, h6, h7, commandFrame_length]
  norm_num
  split_ifs <;> simp

/-- A raw-read-variant run that reaches the write step with no reported
write error proceeds to the response read whatever the written count was:
the byte count is never checked there. -/
theorem rawread_ignores_written_count (cfg : Config) (w' : WorldRawread)
    (d : Nat) (rest : List Nat)
    (hl : w'.listErr = false) (hdev : w'.devs = d :: rest)
    (h3 : w'.epReadErr = false) (h4 : w'.epWriteErr = false)
    (h5 : w'.flush1.err = false) (h6 : w'.write.err = false) :
    (Rawread.run cfg w').wrote = some commandFrame ∧
    (Rawread.run cfg w').written = some w'.write.written ∧
    (Rawread.run cfg w').respCount = some (goRead commandFrame w'.resp).1 ∧
    (Rawread.run cfg w').fail ≠ some .writeIncomplete ∧
    (Rawread.run cfg w').fail ≠ some .writeFailed := by
  obtain ⟨le, devs, ere, ewe, ⟨f1d, f1e⟩, ⟨wn, we⟩, rp, f2⟩ := w'
  simp only at hl hdev h3 h4 h5 h6
  subst hl hdev h3 h4 h5 h6
  have hsl := goSlice_24_of_length _ (goRead_snd_length commandFrame rp)
  simp only [Rawread.run, hsl]
  split_ifs <;> simp_all

/-- The raw-read world of the C4 counterexample: one device, all transfers
fine, but the adapter reports only 10 of the 16 command bytes written, with
no error. -/
def wShortWriteRaw : WorldRawread :=
  { listErr := false, devs := [5], epReadErr := false, epWriteErr := false,
    flush1 := ⟨[], false⟩, write := ⟨10, false⟩,
    resp := ⟨[0, 0, 0xC2, 0x06], false⟩, flush2 := ⟨[], false⟩ }

/-- C4 counterexample: in the raw-read variant a write outcome of 10 of 16
bytes with no transport error does not fail the session at all — the
exchange completes and the process exits zero. -/
theorem short_write_not_fatal_in_rawread :
    (Rawread.run defaultConfig wShortWriteRaw).written = some 10 ∧
    (Rawread.run defaultConfig wShortWriteRaw).fail = none ∧
    (Rawread.run defaultConfig wShortWriteRaw).exit = 0 := by decide

/-- C4 as amended: the httpd variant writes the fixed 16-byte command frame
and fails hard with `WriteIncomplete` on any reported count other than 16
even when the transport reports no error; the raw-read variant also writes
the frame but checks only the error flag, so with no reported error it
continues to the response read whatever the count. -/
theorem short_write_check_by_variant (cfg : Config) (w : WorldHttpd)
    (w' : WorldRawread) (d : Nat) (rest : List Nat)
    (h1 : w.openDevErr = false) (h2 : w.defaultIntfErr = false)
    (h3 : w.inEpErr = false) (h4 : w.outEpErr = false)
    (h5 : w.flush1.err = false) (h6 : w.write.written < 16)
    (hl : w'.listErr = false) (hdev : w'.devs = d :: rest)
    (h3' : w'.epReadErr = false) (h4' : w'.epWriteErr = false)
    (h5' : w'.flush1.err = false) (h6' : w'.write.err = false) :
    commandFrame.length = 16 ∧
    (Httpd.run cfg w).wrote = some commandFrame ∧
    (Httpd.run cfg w).fail = some .writeIncomplete ∧
    (Httpd.run cfg w).exit = 1 ∧
    (Rawread.run cfg w').wrote = some commandFrame ∧
    (Rawread.run cfg w').fail ≠ some .writeIncomplete ∧
    (Rawread.run cfg w').respCount.isSome := by
  obtain ⟨hw1, hw2, hw3, hw4, hw5⟩ :=
    rawread_ignores_written_count cfg w' d rest hl hdev h3' h4' h5' h6'
  have hne : ¬(w.write.written = commandFrame.length) := by
    rw [commandFrame_length]; omega
  refine ⟨rfl, ?_, ?_, ?_, hw1, hw4, by rw [hw3]; rfl⟩ <;>
    · simp only [Httpd.run, h1, h2, h3, h4, h5]
      norm_num
      rw [if_neg hne]

/-- The httpd world of the C4 witness: identical transfers but the adapter
reports 10 of 16 bytes written. -/
def wShortWriteHttpd : WorldHttpd :=
  { openDevErr := false, defaultIntfErr := false, inEpErr := false, outEpErr := false,
    flush1 := ⟨[], false⟩, write := ⟨10, false⟩,
    resp := ⟨[0, 0, 0xC2, 0x06], false⟩, flush2 := ⟨[], false⟩ }

/-- C4 witness: the amended statement at the two concrete short-write
worlds. -/
theorem short_write_check_by_variant_witness :
    commandFrame.length = 16 ∧
    (Httpd.run defaultConfig wShortWriteHttpd).wrote = some commandFrame ∧
    (Httpd.run defaultConfig wShortWriteHttpd).fail = some .writeIncomplete ∧
    (Httpd.run defaultConfig wShortWriteHttpd).exit = 1 ∧
    (Rawread.run defaultConfig wShortWriteRaw).wrote = some commandFrame ∧
    (Rawread.run defaultConfig wShortWriteRaw).fail ≠ some .writeIncomplete ∧
    (Rawread.run defaultConfig wShortWriteRaw).respCount.isSome :=
  short_write_check_by_variant defaultConfig wShortWriteHttpd wShortWriteRaw
    5 [] rfl rfl rfl rfl rfl (by decide) rfl rfl rfl rfl rfl rfl

/-- The scenario-B world: a successful exchange whose response carries
0x7FFF = 32767 at offsets 2..3, an out-of-range value. -/
def wScenarioB : WorldHttpd :=
  { openDevErr := false, defaultIntfErr := false, inEpErr := false, outEpErr := false,
    flush1 := ⟨[], false⟩, write := ⟨16, false⟩,
    resp := ⟨[0, 0, 0xFF, 0x7F], false⟩, flush2 := ⟨[], false⟩ }

/-- C6: when both flushes, the write and the response read succeed, the
process exits 0 with no failure, and the reported outcome is exactly the
classification of the decoded value — an out-of-range value is reported
with its raw value as `OutOfRange`, never turned into a session failure. -/
theorem completed_exchange_exits_zero (cfg : Config) (w : WorldHttpd)
    (h1 : w.openDevErr = false) (h2 : w.defaultIntfErr = false)
    (h3 : w.inEpErr = false) (h4 : w.outEpErr = false)
    (h5 : w.flush1.err = false) (h6 : w.write.written = 16)
    (h7 : w.resp.err = false) (h8 : w.flush2.err = false) :
    (Httpd.run cfg w).exit = 0 ∧ (Httpd.run cfg w).fail = none ∧
    ∃ v, (Httpd.run cfg w).decoded = some v ∧
      (Httpd.run cfg w).reported = some (Httpd.classify v) := by
  obtain ⟨he, hf, hd, hr⟩ := httpd_success_normal_form cfg w h1 h2 h3 h4 h5 h6 h7
  rw [h8] at he hf
  exact ⟨by simpa using he, by simpa using hf, _, hd, hr⟩

/-- C6 witness: the conclusion at the concrete scenario-B world, where the
decoded value 32767 is out of range yet the exit code is 0 and the report
carries the raw value. -/
theorem completed_exchange_exits_zero_witness :
    ((Httpd.run defaultConfig wScenarioB).exit = 0 ∧
      (Httpd.run defaultConfig wScenarioB).fail = none ∧
      ∃ v, (Httpd.run defaultConfig wScenarioB).decoded = some v ∧
        (Httpd.run defaultConfig wScenarioB).reported =
          some (Httpd.classify v)) ∧
    (Httpd.run defaultConfig wScenarioB).reported =
      some (.OutOfRange 32767) :=
  ⟨completed_exchange_exits_zero defaultConfig wScenarioB
      rfl rfl rfl rfl rfl rfl rfl rfl,
    by decide⟩

/-- C7: under a successful device listing, an empty device list is fatal
(`deviceNotFound`, non-zero exit) before any endpoint is opened, read or
written; a non-empty list makes the session use its first device. -/
theorem zero_devices_fatal_before_endpoints (cfg : Config) (w : WorldRawread)
    (hl : w.listErr = false) :
    (w.devs = [] →
      (Rawread.run cfg w).fail = some .deviceNotFound ∧
      (Rawread.run cfg w).exit ≠ 0 ∧
      (Rawread.run cfg w).epOps = 0 ∧
      (Rawread.run cfg w).inEp = none ∧
      (Rawread.run cfg w).outEp = none ∧
      (Rawread.run cfg w).flush1Count = none ∧
      (Rawread.run cfg w).written = none ∧
      (Rawread.run cfg w).respCount = none) ∧
    (∀ d rest, w.devs = d :: rest →
      (Rawread.run cfg w).usedDevice = some d) := by
  obtain ⟨le, devs, ere, ewe, f1, wr, rp, f2⟩ := w
  simp only at hl
  subst hl
  constructor
  · intro h
    subst h
    simp [Rawread.run]
  · intro d rest h
    subst h
    have hsl := goSlice_24_of_length _ (goRead_snd_length commandFrame rp)
    simp only [Rawread.run, hsl]
    split_ifs <;> simp_all

/-- A raw-read world where listing finds no device at all. -/
def wNoDevices : WorldRawread :=
  { listErr := false, devs := [], epReadErr := false, epWriteErr := false,
    flush1 := ⟨[], false⟩, write := ⟨16, false⟩,
    resp := ⟨[], false⟩, flush2 := ⟨[], false⟩ }

/-- A raw-read world where listing finds two devices, 7 first. -/
def wTwoDevices : WorldRawread :=
  { listErr := false, devs := [7, 8], epReadErr := false, epWriteErr := false,
    flush1 := ⟨[], false⟩, write := ⟨16, false⟩,
    resp := ⟨[0, 0, 0xC2, 0x06], false⟩, flush2 := ⟨[], false⟩ }

/-- C7 witness: the statement at a zero-device world and at a two-device
world. -/
theorem zero_devices_fatal_witness :
    ((Rawread.run defaultConfig wNoDevices).fail = some .deviceNotFound ∧
      (Rawread.run defaultConfig wNoDevices).exit ≠ 0 ∧
      (Rawread.run defaultConfig wNoDevices).epOps = 0 ∧
      (Rawread.run defaultConfig wNoDevices).inEp = none ∧
      (Rawread.run defaultConfig wNoDevices).outEp = none ∧
      (Rawread.run defaultConfig wNoDevices).flush1Count = none ∧
      (Rawread.run defaultConfig wNoDevices).written = none ∧
      (Rawread.run defaultConfig wNoDevices).respCount = none) ∧
    (Rawread.run defaultConfig wTwoDevices).usedDevice = some 7 :=
  ⟨(zero_devices_fatal_before_endpoints defaultConfig wNoDevices rfl).1 rfl,
    (zero_devices_fatal_before_endpoints defaultConfig wTwoDevices rfl).2 7 [8] rfl⟩

/-- The C9 counterexample world: the response read delivers exactly 3
bytes, all zero. -/
def wThreeByteResp : WorldHttpd :=
  { openDevErr := false, defaultIntfErr := false, inEpErr := false, outEpErr := false,
    flush1 := ⟨[], false⟩, write := ⟨16, false⟩,
    resp := ⟨[0, 0, 0], false⟩, flush2 := ⟨[], false⟩ }

/-- C9 counterexample: a 3-byte response read delivers fewer than 4 bytes,
yet the decoded value is 21504, not 21546 — the byte at offset 2 was
overwritten by the response, only offset 3 still holds the command frame's
0x54. -/
theorem three_byte_response_decodes_21504 :
    (Httpd.run defaultConfig wThreeByteResp).respCount = some 3 ∧
    (Httpd.run defaultConfig wThreeByteResp).decoded = some 21504 ∧
    ((21504 : Int) = 21546 → False) := by decide

/-- C9 as amended: slicing `buf[2:4]` never goes out of bounds in either
variant (the response reuses the 16-byte frame buffer, and a read preserves
the buffer length); a response read of fewer than 3 bytes leaves frame
bytes 0x2a, 0x54 at offsets 2..3, decoding to 21546 and classified
`OutOfRange`; a read of exactly 3 bytes decodes its own byte 2 against the
frame's 0x54, giving 21504 plus that byte, still classified `OutOfRange`. -/
theorem response_slice_in_bounds_short_reads (cfg : Config) (w : WorldHttpd)
    (w' : WorldRawread)
    (h1 : w.openDevErr = false) (h2 : w.defaultIntfErr = false)
    (h3 : w.inEpErr = false) (h4 : w.outEpErr = false)
    (h5 : w.flush1.err = false) (h6 : w.write.written = 16)
    (h7 : w.resp.err = false) :
    (Httpd.run cfg w).fail ≠ some .panicked ∧
    (Rawread.run cfg w').fail ≠ some .panicked ∧
    (w.resp.data.length < 3 →
      (Httpd.run cfg w).decoded = some 21546 ∧
      (Httpd.run cfg w).reported = some (.OutOfRange 21546)) ∧
    (∀ a b c : Byte, w.resp.data = [a, b, c] →
      (Httpd.run cfg w).decoded = some ((c.val : Int) + 21504) ∧
      (Httpd.run cfg w).reported =
        some (.OutOfRange ((c.val : Int) + 21504))) := by
  obtain ⟨he, hf, hd, hr⟩ := httpd_success_normal_form cfg w h1 h2 h3 h4 h5 h6 h7
  refine ⟨httpd_no_panic cfg w, rawread_no_panic cfg w', ?_, ?_⟩
  · intro hlen
    rw [hd, hr]
    rcases hdata : w.resp.data with _ | ⟨a, _ | ⟨b, _ | ⟨c, t⟩⟩⟩
    · have hslice : (((goRead commandFrame w.resp).2).drop 2).take 2 =
          [0x2a, 0x54] := by
        simp [goRead, hdata, commandFrame]
      rw [hslice]
      decide
    · have hslice : (((goRead commandFrame w.resp).2).drop 2).take 2 =
          [0x2a, 0x54] := by
        simp [goRead, hdata, commandFrame]
      rw [hslice]
      decide
    · have hslice : (((goRead commandFrame w.resp).2).drop 2).take 2 =
          [0x2a, 0x54] := by
        simp [goRead, hdata, commandFrame]
      rw [hslice]
      decide
    · rw [hdata] at hlen
      simp only [List.length_cons] at hlen
      omega
  · intro a b c hdata
    rw [hd, hr]
    have hslice : (((goRead commandFrame w.resp).2).drop 2).take 2 =
        [c, 0x54] := by
      simp [goRead, hdata, commandFrame]
    rw [hslice]
    have hc := c.isLt
    have hval : Httpd.read_le_int16 [c, (0x54 : Byte)] = (c.val : Int) + 21504 := by
      show toInt16 (c.val + 256 * (0x54 : Byte).val) = (c.val : Int) + 21504
      have h84 : ((0x54 : Byte)).val = 84 := rfl
      rw [h84]
      unfold toInt16
      simp only [Nat.mod_eq_of_lt (show c.val + 256 * 84 < 65536 by omega)]
      rw [if_pos (by omega)]
      push_cast
      ring
    refine ⟨by rw [hval], ?_⟩
    rw [hval]
    unfold Httpd.classify
    rw [if_neg (by omega)]

/-- A fully successful httpd world whose response read delivers nothing. -/
def wEmptyResp : WorldHttpd :=
  { openDevErr := false, defaultIntfErr := false, inEpErr := false, outEpErr := false,
    flush1 := ⟨[], false⟩, write := ⟨16, false⟩,
    resp := ⟨[], false⟩, flush2 := ⟨[], false⟩ }

/-- C9 witness: the amended statement at a zero-byte response world (frame
bytes decode to 21546) and at the three-byte world (decodes to 0 + 21504). -/
theorem response_slice_in_bounds_witness :
    ((Httpd.run defaultConfig wEmptyResp).decoded = some 21546 ∧
      (Httpd.run defaultConfig wEmptyResp).reported =
        some (.OutOfRange 21546)) ∧
    ((Httpd.run defaultConfig wThreeByteResp).decoded =
        some (((0 : Byte).val : Int) + 21504) ∧
      (Httpd.run defaultConfig wThreeByteResp).reported =
        some (.OutOfRange (((0 : Byte).val : Int) + 21504))) :=
  ⟨(response_slice_in_bounds_short_reads defaultConfig wEmptyResp wNoDevices
      rfl rfl rfl rfl rfl rfl rfl).2.2.1 (by decide),
    (response_slice_in_bounds_short_reads defaultConfig wThreeByteResp wNoDevices
      rfl rfl rfl rfl rfl rfl rfl).2.2.2 0 0 0 rfl⟩
